import Mathlib

/-!
# tree-sitter-scl: the Node binding (`bindings/node/binding.cc`)

The binding is one routine, `Init`, that asks the grammar provider for the
descriptor pointer, wraps it as a host external value, tags that value with
`LANGUAGE_TYPE_TAG` and returns it.  Everything `Init` does goes through four
routines that live outside the file (`tree_sitter_scl` and three N-API
functions), so the embedding takes them as a record of state transformers over
an arbitrary world state `σ`, and `Init` is explicit state passing.
-/

set_option linter.unusedVariables false

namespace Scl

/-! ## Data model -/

/-- Machine addresses (`void *`, `TSLanguage *`, function pointers). -/
abbrev Ptr := Nat

/-- The null pointer. -/
def NULL : Nat := 0

/-- The type `napi_env`: an opaque pointer to the host's execution context. -/
abbrev napi_env := Nat

/-- The type `napi_value`: an opaque pointer to a host value. -/
abbrev napi_value := Nat

/-- The enum `napi_status`, as its integer value. -/
abbrev napi_status := Nat

/-- The first enumerator of `napi_status`. -/
def napi_ok : napi_status := 0

/-- The struct `napi_type_tag`: two 64-bit words, `lower` first. -/
structure napi_type_tag where
  lower : Nat
  upper : Nat
deriving DecidableEq, Repr

/-- binding.cc:8-9. -/
def LANGUAGE_TYPE_TAG : napi_type_tag :=
  { lower := 0xA281674CF2487A85, upper := 0x852C407CB62F561A }

/-- The four routines `Init` calls, none of them defined in the binding: the
grammar provider's entry point and three N-API functions.  Each is a
transformer of the world state `σ` (host heap, pending exception, process
memory, ...).  The out-parameter `napi_value *result` of
`napi_create_external` is returned as the second component. -/
structure Host (σ : Type) where
  /-- `TSLanguage *tree_sitter_scl()` -/
  tree_sitter_scl : σ → Ptr × σ
  /-- `napi_create_external(env, data, finalize_cb, finalize_hint, &result)` -/
  napi_create_external : napi_env → Ptr → Ptr → Ptr → σ → napi_status × napi_value × σ
  /-- `napi_type_tag_object(env, value, &type_tag)` -/
  napi_type_tag_object : napi_env → napi_value → napi_type_tag → σ → napi_status × σ
  /-- `napi_throw_error(env, code, msg)` -/
  napi_throw_error : napi_env → String → String → σ → napi_status × σ

variable {σ : Type}

/-! ## The binding -/

/-- binding.cc:11-28, `static napi_value Init(napi_env env, napi_value exports)`.
Returns the function's return value and the world state it leaves. -/
def Init (h : Host σ) (env : napi_env) (exports : napi_value) (s : σ) : napi_value × σ :=
  -- the argument `tree_sitter_scl()` is evaluated before the call it is passed to
  let p := h.tree_sitter_scl s
  -- status = napi_create_external(env, tree_sitter_scl(), NULL, NULL, &language);
  let c := h.napi_create_external env p.1 NULL NULL p.2
  let status := c.1
  let language := c.2.1
  if status ≠ napi_ok then
    let e := h.napi_throw_error env "EINVAL" "Error creating external language" c.2.2
    (NULL, e.2)
  else
    -- status = napi_type_tag_object(env, language, &LANGUAGE_TYPE_TAG);
    let t := h.napi_type_tag_object env language LANGUAGE_TYPE_TAG c.2.2
    let status := t.1
    if status ≠ napi_ok then
      let e := h.napi_throw_error env "EINVAL" "Error tagging language object" t.2
      (NULL, e.2)
    else
      (language, t.2)

/-! ## Observing the calls `Init` makes -/

/-- One call of an external routine, with its arguments and what it answered. -/
inductive Call where
  | tree_sitter_scl (ret : Ptr)
  | napi_create_external (env : napi_env) (data finalize_cb finalize_hint : Ptr)
      (status : napi_status) (result : napi_value)
  | napi_type_tag_object (env : napi_env) (value : napi_value) (tag : napi_type_tag)
      (status : napi_status)
  | napi_throw_error (env : napi_env) (code msg : String) (status : napi_status)
deriving DecidableEq, Repr

/-- The same host, with every call appended to a log kept next to the state. -/
def Host.traced (h : Host σ) : Host (σ × List Call) where
  tree_sitter_scl := fun w =>
    let r := h.tree_sitter_scl w.1
    (r.1, (r.2, w.2 ++ [Call.tree_sitter_scl r.1]))
  napi_create_external := fun env data cb hint w =>
    let r := h.napi_create_external env data cb hint w.1
    (r.1, r.2.1, (r.2.2, w.2 ++ [Call.napi_create_external env data cb hint r.1 r.2.1]))
  napi_type_tag_object := fun env v tag w =>
    let r := h.napi_type_tag_object env v tag w.1
    (r.1, (r.2, w.2 ++ [Call.napi_type_tag_object env v tag r.1]))
  napi_throw_error := fun env code msg w =>
    let r := h.napi_throw_error env code msg w.1
    (r.1, (r.2, w.2 ++ [Call.napi_throw_error env code msg r.1]))

/-- The value `Init` returns. -/
def result (h : Host σ) (env : napi_env) (exports : napi_value) (s : σ) : napi_value :=
  (Init h env exports s).1

/-- The world state `Init` leaves. -/
def final (h : Host σ) (env : napi_env) (exports : napi_value) (s : σ) : σ :=
  (Init h env exports s).2

/-- The calls `Init` makes, in order. -/
def calls (h : Host σ) (env : napi_env) (exports : napi_value) (s : σ) : List Call :=
  (Init h.traced env exports (s, [])).2.2

/-- The `napi_throw_error` calls of a log: code, message and the status the
host answered. -/
def throwCalls : List Call → List (String × String × napi_status)
  | [] => []
  | Call.napi_throw_error _ code msg status :: l => (code, msg, status) :: throwCalls l
  | _ :: l => throwCalls l

/-- The host errors raised in a log: code and message of each
`napi_throw_error` call the host answered `napi_ok`.  A call the host refused
(for instance with `napi_pending_exception`) raises nothing. -/
def errorsRaised : List Call → List (String × String)
  | [] => []
  | Call.napi_throw_error _ code msg status :: l =>
      if status = napi_ok then (code, msg) :: errorsRaised l else errorsRaised l
  | _ :: l => errorsRaised l

/-- The values tagged in a log, each with the tag applied. -/
def tagged : List Call → List (napi_value × napi_type_tag)
  | [] => []
  | Call.napi_type_tag_object _ v tag _ :: l => (v, tag) :: tagged l
  | _ :: l => tagged l

/-- The `napi_create_external` calls of a log: data pointer, finalize
callback and finalize hint of each. -/
def createCalls : List Call → List (Ptr × Ptr × Ptr)
  | [] => []
  | Call.napi_create_external _ data cb hint _ _ :: l => (data, cb, hint) :: createCalls l
  | _ :: l => createCalls l

/-- The pointers the provider returned in a log. -/
def providerCalls : List Call → List Ptr
  | [] => []
  | Call.tree_sitter_scl p :: l => p :: providerCalls l
  | _ :: l => providerCalls l

/-- The data pointer held by the external value `v`: the `data` argument of
the successful `napi_create_external` call of the log that produced `v`. -/
def wrappedData (v : napi_value) : List Call → Option Ptr
  | [] => none
  | Call.napi_create_external _ data _ _ status r :: l =>
      if status = napi_ok ∧ r = v then some data else wrappedData v l
  | _ :: l => wrappedData v l

/-! ## The answers of the host to `Init`'s calls -/

/-- The pointer the provider returns when called from state `s`. -/
def descriptor (h : Host σ) (s : σ) : Ptr :=
  (h.tree_sitter_scl s).1

/-- The answer to the `napi_create_external` call `Init` makes from `s`. -/
def created (h : Host σ) (env : napi_env) (s : σ) : napi_status × napi_value × σ :=
  h.napi_create_external env (h.tree_sitter_scl s).1 NULL NULL (h.tree_sitter_scl s).2

/-- The host accepts the creation of the external value. -/
def CreateOk (h : Host σ) (env : napi_env) (s : σ) : Prop :=
  (created h env s).1 = napi_ok

/-- The answer to the `napi_type_tag_object` call `Init` makes once the
external value exists. -/
def tagAnswer (h : Host σ) (env : napi_env) (s : σ) : napi_status × σ :=
  h.napi_type_tag_object env (created h env s).2.1 LANGUAGE_TYPE_TAG (created h env s).2.2

/-- The host accepts the tagging of the created value. -/
def TagOk (h : Host σ) (env : napi_env) (s : σ) : Prop :=
  (tagAnswer h env s).1 = napi_ok

/-- The answer to the `napi_throw_error` call `Init` makes when the creation
is rejected; `Init` discards its status. -/
def wrapThrow (h : Host σ) (env : napi_env) (s : σ) : napi_status × σ :=
  h.napi_throw_error env "EINVAL" "Error creating external language" (created h env s).2.2

/-- The answer to the `napi_throw_error` call `Init` makes when the tagging is
rejected; `Init` discards its status. -/
def tagThrow (h : Host σ) (env : napi_env) (s : σ) : napi_status × σ :=
  h.napi_throw_error env "EINVAL" "Error tagging language object" (tagAnswer h env s).2

instance (h : Host σ) (env : napi_env) (s : σ) : Decidable (CreateOk h env s) := by
  unfold CreateOk; infer_instance

instance (h : Host σ) (env : napi_env) (s : σ) : Decidable (TagOk h env s) := by
  unfold TagOk; infer_instance

/-! ## A simulated host -/

/-- An external value of the simulated host. -/
structure External where
  handle : napi_value
  data : Ptr
  finalize_cb : Ptr
  finalize_hint : Ptr
  tag : Option napi_type_tag
deriving DecidableEq, Repr

/-- State of the simulated host: where the provider keeps its descriptor and
what it holds, the statuses the host will answer, the external values created
so far and the errors thrown so far. -/
structure Sim where
  descriptorAddr : Ptr
  descriptorBytes : List Nat
  createStatus : napi_status
  tagStatus : napi_status
  externals : List External
  thrown : List (String × String)
deriving DecidableEq, Repr

/-- A host that answers `createStatus` and `tagStatus`; handles are numbered
from 1 in creation order. -/
def simHost : Host Sim where
  tree_sitter_scl := fun s => (s.descriptorAddr, s)
  napi_create_external := fun env data cb hint s =>
    if s.createStatus = napi_ok then
      (napi_ok, s.externals.length + 1,
        { s with externals := s.externals ++
            [{ handle := s.externals.length + 1, data := data, finalize_cb := cb,
               finalize_hint := hint, tag := none }] })
    else (s.createStatus, NULL, s)
  napi_type_tag_object := fun env v tag s =>
    if s.tagStatus = napi_ok then
      (napi_ok, { s with externals :=
          s.externals.map (fun e => if e.handle = v then { e with tag := some tag } else e) })
    else (s.tagStatus, s)
  napi_throw_error := fun env code msg s =>
    (napi_ok, { s with thrown := s.thrown ++ [(code, msg)] })

/-- A fresh simulated process: descriptor of four bytes at address 4096. -/
def sim (createStatus tagStatus : napi_status) : Sim :=
  { descriptorAddr := 4096, descriptorBytes := [1, 2, 3, 4],
    createStatus := createStatus, tagStatus := tagStatus,
    externals := [], thrown := [] }

/-- The handles of the external values the simulated host holds. -/
def Sim.handles (s : Sim) : List napi_value :=
  s.externals.map External.handle

/-! ## Frame conditions on the external routines -/

/-- A world state records the external values created: `ext` lists their
handles, a successful `napi_create_external` appends the handle it yields, and
nothing else changes the list. -/
structure RecordsExternals (h : Host σ) (ext : σ → List napi_value) : Prop where
  provider : ∀ s, ext (h.tree_sitter_scl s).2 = ext s
  create_ok : ∀ env data cb hint s, (h.napi_create_external env data cb hint s).1 = napi_ok →
    ext (h.napi_create_external env data cb hint s).2.2
      = ext s ++ [(h.napi_create_external env data cb hint s).2.1]
  create_failed : ∀ env data cb hint s, (h.napi_create_external env data cb hint s).1 ≠ napi_ok →
    ext (h.napi_create_external env data cb hint s).2.2 = ext s
  tag : ∀ env v t s, ext (h.napi_type_tag_object env v t s).2 = ext s
  throw : ∀ env code msg s, ext (h.napi_throw_error env code msg s).2 = ext s

/-- The `n` bytes at address `p` of a memory. -/
def bytesAt (m : Ptr → Nat) (p : Ptr) (n : Nat) : List Nat :=
  (List.range n).map (fun i => m (p + i))

/-- Address `a` lies in the block of `size` bytes at `p`. -/
def inBlock (p : Ptr) (size : Nat) (a : Nat) : Prop :=
  p ≤ a ∧ a < p + size

instance (p : Ptr) (size : Nat) (a : Nat) : Decidable (inBlock p size a) := by
  unfold inBlock; infer_instance

/-- The external routines keep their hands off the block of `size` bytes at
`p`: the provider, `napi_create_external` (for which `data` is an opaque word
it stores and never follows) and `napi_throw_error` leave its bytes as they
are, and `napi_type_tag_object`, which changes the object it is handed, leaves
them as they are when that object is not in the block. -/
structure Host.KeepsBlock (h : Host σ) (mem : σ → Ptr → Nat) (p : Ptr) (size : Nat) :
    Prop where
  provider : ∀ w, bytesAt (mem (h.tree_sitter_scl w).2) p size = bytesAt (mem w) p size
  create : ∀ env data cb hint w,
    bytesAt (mem (h.napi_create_external env data cb hint w).2.2) p size
      = bytesAt (mem w) p size
  tag : ∀ env v g w, ¬ inBlock p size v →
    bytesAt (mem (h.napi_type_tag_object env v g w).2) p size = bytesAt (mem w) p size
  throw : ∀ env code msg w,
    bytesAt (mem (h.napi_throw_error env code msg w).2) p size = bytesAt (mem w) p size

/-- The memory of the simulated process: the descriptor's bytes at the
descriptor's address, zero elsewhere. -/
def simMem (w : Sim) (a : Ptr) : Nat :=
  if w.descriptorAddr ≤ a then w.descriptorBytes.getD (a - w.descriptorAddr) 0 else 0

/-! ## Hosts that depart from the simulated one in a single routine -/

/-- The simulated host with an exception already pending: `napi_throw_error`
answers status 10 (`napi_pending_exception`) and raises nothing. -/
def refusingHost : Host Sim :=
  { simHost with napi_throw_error := fun env code msg s => (10, s) }

/-- The simulated host, except that `napi_create_external` answers `napi_ok`
and hands out the `NULL` handle. -/
def nullHost : Host Sim :=
  { simHost with napi_create_external := fun env data cb hint s => (napi_ok, NULL, s) }

/-- The simulated host, except that `napi_create_external` first zeroes the
descriptor when `data` is its address. -/
def clobberHost : Host Sim where
  tree_sitter_scl := simHost.tree_sitter_scl
  napi_create_external := fun env data cb hint s =>
    simHost.napi_create_external env data cb hint
      { s with descriptorBytes :=
          if data = s.descriptorAddr then s.descriptorBytes.map (fun _ => 0)
          else s.descriptorBytes }
  napi_type_tag_object := simHost.napi_type_tag_object
  napi_throw_error := simHost.napi_throw_error

/-- The simulated host, except that `napi_type_tag_object` writes the tag's
lower word into memory at the address of the object it is handed. -/
def writingHost : Host Sim where
  tree_sitter_scl := simHost.tree_sitter_scl
  napi_create_external := simHost.napi_create_external
  napi_type_tag_object := fun env v tag s =>
    simHost.napi_type_tag_object env v tag
      { s with descriptorBytes :=
          if s.descriptorAddr ≤ v then s.descriptorBytes.set (v - s.descriptorAddr) tag.lower
          else s.descriptorBytes }
  napi_throw_error := simHost.napi_throw_error

/-! ## What `Init` does in each of its three outcomes -/

/-- The tracing host runs the host underneath: same return value, same state. -/
theorem Init_traced_eq (h : Host σ) (env : napi_env) (exports : napi_value) (s : σ)
    (l : List Call) :
    (Init h.traced env exports (s, l)).1 = (Init h env exports s).1 ∧
    (Init h.traced env exports (s, l)).2.1 = (Init h env exports s).2 := by
  unfold Init
  by_cases hc : (h.napi_create_external env (h.tree_sitter_scl s).1 NULL NULL
      (h.tree_sitter_scl s).2).1 = napi_ok
  · by_cases ht : (h.napi_type_tag_object env
        (h.napi_create_external env (h.tree_sitter_scl s).1 NULL NULL
          (h.tree_sitter_scl s).2).2.1 LANGUAGE_TYPE_TAG
        (h.napi_create_external env (h.tree_sitter_scl s).1 NULL NULL
          (h.tree_sitter_scl s).2).2.2).1 = napi_ok
    · simp [Host.traced, hc, ht]
    · simp [Host.traced, hc, ht]
  · simp [Host.traced, hc]

/-- Outcome when the host rejects the creation of the external value. -/
theorem Init_wrapFailure (h : Host σ) (env : napi_env) (exports : napi_value) (s : σ)
    (hc : ¬ CreateOk h env s) :
    result h env exports s = NULL ∧
    final h env exports s =
      (h.napi_throw_error env "EINVAL" "Error creating external language"
        (created h env s).2.2).2 ∧
    calls h env exports s =
      [Call.tree_sitter_scl (descriptor h s),
       Call.napi_create_external env (descriptor h s) NULL NULL
         (created h env s).1 (created h env s).2.1,
       Call.napi_throw_error env "EINVAL" "Error creating external language"
         (h.napi_throw_error env "EINVAL" "Error creating external language"
           (created h env s).2.2).1] := by
  unfold CreateOk created at hc
  simp [result, final, calls, Init, Host.traced, created, descriptor, hc]

/-- Outcome when the host creates the external value and rejects its tagging. -/
theorem Init_tagFailure (h : Host σ) (env : napi_env) (exports : napi_value) (s : σ)
    (hc : CreateOk h env s) (ht : ¬ TagOk h env s) :
    result h env exports s = NULL ∧
    final h env exports s =
      (h.napi_throw_error env "EINVAL" "Error tagging language object"
        (tagAnswer h env s).2).2 ∧
    calls h env exports s =
      [Call.tree_sitter_scl (descriptor h s),
       Call.napi_create_external env (descriptor h s) NULL NULL
         napi_ok (created h env s).2.1,
       Call.napi_type_tag_object env (created h env s).2.1 LANGUAGE_TYPE_TAG
         (tagAnswer h env s).1,
       Call.napi_throw_error env "EINVAL" "Error tagging language object"
         (h.napi_throw_error env "EINVAL" "Error tagging language object"
           (tagAnswer h env s).2).1] := by
  unfold TagOk tagAnswer at ht
  unfold CreateOk created at hc
  unfold created at ht
  simp [result, final, calls, Init, Host.traced, created, tagAnswer, descriptor, hc, ht]

/-- Outcome when the host accepts both calls. -/
theorem Init_success (h : Host σ) (env : napi_env) (exports : napi_value) (s : σ)
    (hc : CreateOk h env s) (ht : TagOk h env s) :
    result h env exports s = (created h env s).2.1 ∧
    final h env exports s = (tagAnswer h env s).2 ∧
    calls h env exports s =
      [Call.tree_sitter_scl (descriptor h s),
       Call.napi_create_external env (descriptor h s) NULL NULL
         napi_ok (created h env s).2.1,
       Call.napi_type_tag_object env (created h env s).2.1 LANGUAGE_TYPE_TAG napi_ok] := by
  unfold TagOk tagAnswer at ht
  unfold CreateOk created at hc
  unfold created at ht
  simp [result, final, calls, Init, Host.traced, created, tagAnswer, descriptor, hc, ht]

/-! ## The simulated host meets the frame conditions -/

/-- Offsets of two different addresses from a common base are different. -/
theorem sub_ne_sub (a v q : Nat) (ha : a ≤ v) (hb : a ≤ q) (hne : q ≠ v) :
    q - a ≠ v - a := by
  omega

/-- Writing one cell of a list leaves the other cells as they were. -/
theorem getD_set_of_ne (l : List Nat) (k j x : Nat) (hjk : j ≠ k) :
    (l.set k x)[j]?.getD 0 = l[j]?.getD 0 := by
  rw [List.getElem?_set_ne (Ne.symm hjk)]

/-- The host that writes into the object it tags leaves every block alone that
the object is not in. -/
theorem writingHost_keepsBlock (p : Nat) (n : Nat) : writingHost.KeepsBlock simMem p n where
  provider := fun s => rfl
  create := by
    intro env data cb hint s
    by_cases hk : s.createStatus = napi_ok <;>
      simp [writingHost, simHost, hk, bytesAt, simMem]
  tag := by
    intro env v g s hv
    have key : ∀ i : Nat, i < n →
        simMem (writingHost.napi_type_tag_object env v g s).2 (p + i) = simMem s (p + i) := by
      intro i hi
      have hne : (p + i : Nat) ≠ v := by
        intro hpv
        have h1 : (p : Nat) ≤ v := by omega
        have h2 : (v : Nat) < p + n := by omega
        exact hv ⟨h1, h2⟩
      by_cases hk : s.tagStatus = napi_ok <;>
        by_cases ha : (s.descriptorAddr : Nat) ≤ v <;>
        by_cases hb : (s.descriptorAddr : Nat) ≤ p + i <;>
        simp [writingHost, simHost, simMem, hk, ha, hb]
      all_goals exact getD_set_of_ne _ _ _ _ (sub_ne_sub _ _ _ ha hb hne)
    unfold bytesAt
    apply List.map_congr_left
    intro i hi
    exact key i (List.mem_range.1 hi)
  throw := fun env code msg s => rfl

/-- The simulated host records the external values it creates. -/
theorem simHost_records : RecordsExternals simHost Sim.handles where
  provider := fun s => rfl
  create_ok := by
    intro env data cb hint s hs
    by_cases hk : s.createStatus = napi_ok
    · simp [simHost, Sim.handles, hk]
    · simp [simHost, hk] at hs
  create_failed := by
    intro env data cb hint s hs
    by_cases hk : s.createStatus = napi_ok
    · simp [simHost, hk] at hs
    · simp [simHost, hk]
  tag := by
    intro env v t s
    by_cases hk : s.tagStatus = napi_ok
    · simp only [simHost, Sim.handles, hk, if_true, List.map_map]
      apply List.map_congr_left
      intro e _
      by_cases he : e.handle = v <;> simp [he]
    · simp [simHost, hk]
  throw := fun env code msg s => rfl

/-! ## The contract of `Init` -/

/-- C1: when the host accepts both `napi_create_external` and
`napi_type_tag_object`, exactly one value is tagged, it is the value `Init`
returns (the external value just created), and the tag applied to it is
`LANGUAGE_TYPE_TAG`, whose two 64-bit words are `0xA281674CF2487A85` (lower)
and `0x852C407CB62F561A` (upper). -/
theorem C1_returned_value_carries_language_tag (h : Host σ) (env : napi_env)
    (exports : napi_value) (s : σ) (hc : CreateOk h env s) (ht : TagOk h env s) :
    tagged (calls h env exports s) = [(result h env exports s, LANGUAGE_TYPE_TAG)] ∧
    result h env exports s = (created h env s).2.1 ∧
    LANGUAGE_TYPE_TAG = { lower := 0xA281674CF2487A85, upper := 0x852C407CB62F561A } ∧
    LANGUAGE_TYPE_TAG.lower < 2 ^ 64 ∧ LANGUAGE_TYPE_TAG.upper < 2 ^ 64 := by
  obtain ⟨hr, -, hl⟩ := Init_success h env exports s hc ht
  refine ⟨?_, hr, rfl, by decide, by decide⟩
  rw [hl, hr]
  rfl

/-- C1 on the simulated host that accepts both calls: handle 1 is returned and
is the one value tagged. -/
theorem C1_witness :
    CreateOk simHost 7 (sim 0 0) ∧ TagOk simHost 7 (sim 0 0) ∧
    tagged (calls simHost 7 9 (sim 0 0)) = [(1, LANGUAGE_TYPE_TAG)] ∧
    result simHost 7 9 (sim 0 0) = 1 :=
  ⟨by decide, by decide,
    (C1_returned_value_carries_language_tag simHost 7 9 (sim 0 0)
      (by decide) (by decide)).1,
    by decide⟩

/-- C2: on a successful `Init`, the provider is called once, the pointer it
returns is the `data` argument of the one `napi_create_external` call, and the
external value `Init` returns is the value that call produced, so the pointer
it holds is the provider's pointer itself. -/
theorem C2_wrapped_pointer_is_provider_pointer (h : Host σ) (env : napi_env)
    (exports : napi_value) (s : σ) (hc : CreateOk h env s) (ht : TagOk h env s) :
    providerCalls (calls h env exports s) = [(h.tree_sitter_scl s).1] ∧
    createCalls (calls h env exports s) = [((h.tree_sitter_scl s).1, NULL, NULL)] ∧
    wrappedData (result h env exports s) (calls h env exports s)
      = some (h.tree_sitter_scl s).1 := by
  obtain ⟨hr, -, hl⟩ := Init_success h env exports s hc ht
  rw [hl, hr]
  simp [providerCalls, createCalls, wrappedData, descriptor]

/-- C2 on the simulated host: the external value returned holds address 4096,
where the simulated provider keeps its descriptor. -/
theorem C2_witness :
    CreateOk simHost 7 (sim 0 0) ∧ TagOk simHost 7 (sim 0 0) ∧
    (simHost.tree_sitter_scl (sim 0 0)).1 = 4096 ∧
    wrappedData (result simHost 7 9 (sim 0 0)) (calls simHost 7 9 (sim 0 0))
      = some (simHost.tree_sitter_scl (sim 0 0)).1 :=
  ⟨by decide, by decide, by decide,
    (C2_wrapped_pointer_is_provider_pointer simHost 7 9 (sim 0 0)
      (by decide) (by decide)).2.2⟩

/-- C3 fails as stated: on the simulated host with an exception pending,
`napi_create_external` answers status 10, `Init` makes its one
`napi_throw_error` call, the host answers status 10 to it as well, `Init`
discards that status and returns `NULL`, and no host error has been raised. -/
theorem C3_counterexample :
    ¬ CreateOk refusingHost 7 (sim 10 0) ∧
    result refusingHost 7 9 (sim 10 0) = NULL ∧
    throwCalls (calls refusingHost 7 9 (sim 10 0))
      = [("EINVAL", "Error creating external language", 10)] ∧
    errorsRaised (calls refusingHost 7 9 (sim 10 0)) = [] ∧
    (final refusingHost 7 9 (sim 10 0)).thrown = [] ∧
    errorsRaised (calls refusingHost 7 9 (sim 10 0))
      ≠ [("EINVAL", "Error creating external language")] := by
  decide

/-- C3, amended (WrapFailure): when `napi_create_external` answers a status
other than `napi_ok`, `Init` makes exactly one `napi_throw_error` call, with
code `EINVAL` and message `Error creating external language`, returns `NULL`,
and makes no `napi_type_tag_object` call.  It discards the status of the
throw: exactly one host error, with that code and message, is raised when the
host answers the throw `napi_ok`, and none when the host refuses it. -/
theorem C3_amended_wrap_failure (h : Host σ) (env : napi_env) (exports : napi_value)
    (s : σ) (hc : ¬ CreateOk h env s) :
    throwCalls (calls h env exports s)
      = [("EINVAL", "Error creating external language", (wrapThrow h env s).1)] ∧
    result h env exports s = NULL ∧
    tagged (calls h env exports s) = [] ∧
    ((wrapThrow h env s).1 = napi_ok →
      errorsRaised (calls h env exports s)
        = [("EINVAL", "Error creating external language")]) ∧
    ((wrapThrow h env s).1 ≠ napi_ok → errorsRaised (calls h env exports s) = []) := by
  obtain ⟨hr, -, hl⟩ := Init_wrapFailure h env exports s hc
  rw [hl, hr]
  refine ⟨by simp [throwCalls, wrapThrow], rfl, by simp [tagged], ?_, ?_⟩
  · intro hk
    unfold wrapThrow at hk
    simp [errorsRaised, hk]
  · intro hk
    unfold wrapThrow at hk
    simp [errorsRaised, hk]

/-- C3 amended, on the simulated host that rejects the creation with status 9
and accepts the throw: one error raised, recorded by the host. -/
theorem C3_witness :
    ¬ CreateOk simHost 7 (sim 9 0) ∧
    (wrapThrow simHost 7 (sim 9 0)).1 = napi_ok ∧
    errorsRaised (calls simHost 7 9 (sim 9 0))
      = [("EINVAL", "Error creating external language")] ∧
    (final simHost 7 9 (sim 9 0)).thrown
      = [("EINVAL", "Error creating external language")] ∧
    result simHost 7 9 (sim 9 0) = NULL ∧
    tagged (calls simHost 7 9 (sim 9 0)) = [] :=
  ⟨by decide, by decide,
    (C3_amended_wrap_failure simHost 7 9 (sim 9 0) (by decide)).2.2.2.1 (by decide),
    by decide,
    (C3_amended_wrap_failure simHost 7 9 (sim 9 0) (by decide)).2.1,
    (C3_amended_wrap_failure simHost 7 9 (sim 9 0) (by decide)).2.2.1⟩

/-- C4 fails as stated: on the simulated host with an exception pending that
creates handle 1 and rejects its tagging with status 10, `Init` makes its one
`napi_throw_error` call, the host answers status 10 to it, `Init` discards
that status and returns `NULL`, and no host error has been raised. -/
theorem C4_counterexample :
    CreateOk refusingHost 7 (sim 0 10) ∧ ¬ TagOk refusingHost 7 (sim 0 10) ∧
    result refusingHost 7 9 (sim 0 10) = NULL ∧
    throwCalls (calls refusingHost 7 9 (sim 0 10))
      = [("EINVAL", "Error tagging language object", 10)] ∧
    errorsRaised (calls refusingHost 7 9 (sim 0 10)) = [] ∧
    (final refusingHost 7 9 (sim 0 10)).thrown = [] ∧
    errorsRaised (calls refusingHost 7 9 (sim 0 10))
      ≠ [("EINVAL", "Error tagging language object")] := by
  decide

/-- C4, amended (TagFailure): when `napi_create_external` answers `napi_ok`
and `napi_type_tag_object` answers another status, `Init` makes exactly one
`napi_throw_error` call, with code `EINVAL` and message
`Error tagging language object`, and returns `NULL`: the external value that
was created (and that the failed tagging call was made on) is not what `Init`
returns unless it is `NULL` itself.  It discards the status of the throw:
exactly one host error, with that code and message, is raised when the host
answers the throw `napi_ok`, and none when the host refuses it. -/
theorem C4_amended_tag_failure (h : Host σ) (env : napi_env) (exports : napi_value)
    (s : σ) (hc : CreateOk h env s) (ht : ¬ TagOk h env s) :
    throwCalls (calls h env exports s)
      = [("EINVAL", "Error tagging language object", (tagThrow h env s).1)] ∧
    result h env exports s = NULL ∧
    tagged (calls h env exports s) = [((created h env s).2.1, LANGUAGE_TYPE_TAG)] ∧
    ((created h env s).2.1 ≠ NULL → result h env exports s ≠ (created h env s).2.1) ∧
    ((tagThrow h env s).1 = napi_ok →
      errorsRaised (calls h env exports s) = [("EINVAL", "Error tagging language object")]) ∧
    ((tagThrow h env s).1 ≠ napi_ok → errorsRaised (calls h env exports s) = []) := by
  obtain ⟨hr, -, hl⟩ := Init_tagFailure h env exports s hc ht
  rw [hl, hr]
  refine ⟨by simp [throwCalls, tagThrow], rfl, by simp [tagged],
    fun hne heq => hne heq.symm, ?_, ?_⟩
  · intro hk
    unfold tagThrow at hk
    simp [errorsRaised, hk]
  · intro hk
    unfold tagThrow at hk
    simp [errorsRaised, hk]

/-- C4 amended, on the simulated host that creates handle 1, rejects its
tagging with status 9 and accepts the throw: one error raised, recorded by the
host. -/
theorem C4_witness :
    CreateOk simHost 7 (sim 0 9) ∧ ¬ TagOk simHost 7 (sim 0 9) ∧
    (created simHost 7 (sim 0 9)).2.1 = 1 ∧
    (tagThrow simHost 7 (sim 0 9)).1 = napi_ok ∧
    errorsRaised (calls simHost 7 9 (sim 0 9))
      = [("EINVAL", "Error tagging language object")] ∧
    (final simHost 7 9 (sim 0 9)).thrown = [("EINVAL", "Error tagging language object")] ∧
    result simHost 7 9 (sim 0 9) = NULL :=
  ⟨by decide, by decide, by decide, by decide,
    (C4_amended_tag_failure simHost 7 9 (sim 0 9) (by decide) (by decide)).2.2.2.2.1
      (by decide),
    by decide,
    (C4_amended_tag_failure simHost 7 9 (sim 0 9) (by decide) (by decide)).2.1⟩

/-- C5 fails as stated, twice.  On the host whose `napi_create_external`
answers `napi_ok` with the `NULL` handle, both host calls answer `napi_ok` and
`Init` returns `NULL`, so the equivalence fails.  On the host with an exception
pending, the creation is rejected and `Init` returns `NULL` with no host error
raised, not one. -/
theorem C5_counterexample :
    (CreateOk nullHost 7 (sim 0 0) ∧ TagOk nullHost 7 (sim 0 0)) ∧
    result nullHost 7 9 (sim 0 0) = NULL ∧
    ¬ ((result nullHost 7 9 (sim 0 0) ≠ NULL ∧
          errorsRaised (calls nullHost 7 9 (sim 0 0)) = []) ↔
        (CreateOk nullHost 7 (sim 0 0) ∧ TagOk nullHost 7 (sim 0 0))) ∧
    ¬ (CreateOk refusingHost 7 (sim 10 0) ∧ TagOk refusingHost 7 (sim 10 0)) ∧
    result refusingHost 7 9 (sim 10 0) = NULL ∧
    errorsRaised (calls refusingHost 7 9 (sim 10 0)) = [] := by
  decide

/-- C5, amended: WrapFailure and TagFailure are the only error paths.  In every
host, `Init` makes no `napi_throw_error` call if and only if both
`napi_create_external` and `napi_type_tag_object` answer `napi_ok`, and then
it returns the created handle with no error raised; otherwise it returns
`NULL` after exactly one `napi_throw_error` call, which is one of the two
fixed ones and whose status it discards; and the provider and each host
routine are called at most once.  In a host whose `napi_create_external`
yields a non-`NULL` handle when it answers `napi_ok` and that answers `napi_ok`
to the throw `Init` makes, `Init` returns a non-`NULL` value and raises no
error if and only if both host calls answer `napi_ok`, and otherwise returns
`NULL` after raising exactly one error. -/
theorem C5_amended_only_two_error_paths (h : Host σ) (env : napi_env)
    (exports : napi_value) (s : σ) :
    (throwCalls (calls h env exports s) = [] ↔ (CreateOk h env s ∧ TagOk h env s)) ∧
    ((CreateOk h env s ∧ TagOk h env s) →
      result h env exports s = (created h env s).2.1 ∧
      errorsRaised (calls h env exports s) = []) ∧
    (¬ (CreateOk h env s ∧ TagOk h env s) →
      result h env exports s = NULL ∧
      (throwCalls (calls h env exports s)
          = [("EINVAL", "Error creating external language", (wrapThrow h env s).1)] ∨
        throwCalls (calls h env exports s)
          = [("EINVAL", "Error tagging language object", (tagThrow h env s).1)])) ∧
    ((providerCalls (calls h env exports s)).length ≤ 1 ∧
      (createCalls (calls h env exports s)).length ≤ 1 ∧
      (tagged (calls h env exports s)).length ≤ 1 ∧
      (throwCalls (calls h env exports s)).length ≤ 1) ∧
    ((CreateOk h env s → (created h env s).2.1 ≠ NULL) →
      (∀ c ∈ throwCalls (calls h env exports s), c.2.2 = napi_ok) →
      ((result h env exports s ≠ NULL ∧ errorsRaised (calls h env exports s) = []) ↔
        (CreateOk h env s ∧ TagOk h env s)) ∧
      (¬ (CreateOk h env s ∧ TagOk h env s) →
        result h env exports s = NULL ∧
        (errorsRaised (calls h env exports s)
            = [("EINVAL", "Error creating external language")] ∨
          errorsRaised (calls h env exports s)
            = [("EINVAL", "Error tagging language object")]))) := by
  by_cases hc : CreateOk h env s
  · by_cases ht : TagOk h env s
    · obtain ⟨hr, -, hl⟩ := Init_success h env exports s hc ht
      rw [hl, hr]
      refine ⟨by simp [throwCalls, hc, ht], by simp [errorsRaised], by simp [hc, ht],
        by simp [providerCalls, createCalls, tagged, throwCalls], ?_⟩
      intro hnn _
      simp [hc, ht, hnn hc, errorsRaised]
    · obtain ⟨hr, -, hl⟩ := Init_tagFailure h env exports s hc ht
      rw [hl, hr]
      refine ⟨by simp [throwCalls, hc, ht], by simp [hc, ht],
        by simp [throwCalls, tagThrow],
        by simp [providerCalls, createCalls, tagged, throwCalls], ?_⟩
      intro _ hacc
      have hk := hacc _ (List.mem_singleton.2 rfl)
      simp only at hk
      simp [hc, ht, errorsRaised, hk]
  · obtain ⟨hr, -, hl⟩ := Init_wrapFailure h env exports s hc
    rw [hl, hr]
    refine ⟨by simp [throwCalls, hc], by simp [hc],
      by simp [throwCalls, wrapThrow],
      by simp [providerCalls, createCalls, tagged, throwCalls], ?_⟩
    intro _ hacc
    have hk := hacc _ (List.mem_singleton.2 rfl)
    simp only at hk
    simp [hc, errorsRaised, hk]

/-- C5 amended, on the simulated host, whose handles start at 1 and which
accepts every throw: with both calls accepted `Init` returns a non-`NULL`
value and raises nothing; with the creation rejected it returns `NULL` after
raising one error. -/
theorem C5_witness :
    ((result simHost 7 9 (sim 0 0) ≠ NULL ∧
        errorsRaised (calls simHost 7 9 (sim 0 0)) = []) ↔
      (CreateOk simHost 7 (sim 0 0) ∧ TagOk simHost 7 (sim 0 0))) ∧
    result simHost 7 9 (sim 0 0) ≠ NULL ∧
    (¬ (CreateOk simHost 7 (sim 9 0) ∧ TagOk simHost 7 (sim 9 0)) →
      result simHost 7 9 (sim 9 0) = NULL ∧
      (errorsRaised (calls simHost 7 9 (sim 9 0))
          = [("EINVAL", "Error creating external language")] ∨
        errorsRaised (calls simHost 7 9 (sim 9 0))
          = [("EINVAL", "Error tagging language object")])) ∧
    ¬ (CreateOk simHost 7 (sim 9 0) ∧ TagOk simHost 7 (sim 9 0)) :=
  ⟨((C5_amended_only_two_error_paths simHost 7 9 (sim 0 0)).2.2.2.2
      (by decide) (by decide)).1,
   by decide,
   ((C5_amended_only_two_error_paths simHost 7 9 (sim 9 0)).2.2.2.2
      (by decide) (by decide)).2,
   by decide⟩

/-- C6 fails for TagFailure: on the simulated host that creates handle 1 and
then rejects its tagging, `Init` fails (it returns `NULL` with one error
raised) and the host, which held no external value before the call, holds
handle 1 after it. -/
theorem C6_counterexample :
    CreateOk simHost 7 (sim 0 9) ∧ ¬ TagOk simHost 7 (sim 0 9) ∧
    result simHost 7 9 (sim 0 9) = NULL ∧
    (sim 0 9).handles = [] ∧
    (final simHost 7 9 (sim 0 9)).handles = [1] ∧
    (final simHost 7 9 (sim 0 9)).handles ≠ (sim 0 9).handles := by
  decide

/-- C6, amended: over a world state that records the external values created,
the values existing after a WrapFailure are those that existed before the
call; after a TagFailure they are those that existed before together with the
wrapper `napi_create_external` created, which `Init` does not return (it
returns `NULL`) and does not remove. -/
theorem C6_amended_failure_states (h : Host σ) (ext : σ → List napi_value)
    (hrec : RecordsExternals h ext) (env : napi_env) (exports : napi_value) (s : σ) :
    (¬ CreateOk h env s → ext (final h env exports s) = ext s) ∧
    (CreateOk h env s → ¬ TagOk h env s →
      ext (final h env exports s) = ext s ++ [(created h env s).2.1] ∧
      result h env exports s = NULL) := by
  constructor
  · intro hc
    obtain ⟨-, hf, -⟩ := Init_wrapFailure h env exports s hc
    rw [hf, hrec.throw]
    unfold created
    rw [hrec.create_failed _ _ _ _ _ hc, hrec.provider]
  · intro hc ht
    obtain ⟨hr, hf, -⟩ := Init_tagFailure h env exports s hc ht
    refine ⟨?_, hr⟩
    rw [hf, hrec.throw]
    unfold tagAnswer
    rw [hrec.tag]
    unfold created
    rw [hrec.create_ok _ _ _ _ _ hc, hrec.provider]

/-- C6 amended, on the simulated host: nothing is left after a rejected
creation, handle 1 is left after a rejected tagging. -/
theorem C6_witness :
    (¬ CreateOk simHost 7 (sim 9 0) →
      (final simHost 7 9 (sim 9 0)).handles = (sim 9 0).handles) ∧
    (CreateOk simHost 7 (sim 0 9) → ¬ TagOk simHost 7 (sim 0 9) →
      (final simHost 7 9 (sim 0 9)).handles
          = (sim 0 9).handles ++ [(created simHost 7 (sim 0 9)).2.1] ∧
      result simHost 7 9 (sim 0 9) = NULL) ∧
    ¬ CreateOk simHost 7 (sim 9 0) ∧ CreateOk simHost 7 (sim 0 9) ∧
    ¬ TagOk simHost 7 (sim 0 9) :=
  ⟨(C6_amended_failure_states simHost Sim.handles simHost_records 7 9 (sim 9 0)).1,
   (C6_amended_failure_states simHost Sim.handles simHost_records 7 9 (sim 0 9)).2,
   by decide, by decide, by decide⟩

/-- C7: two successful runs of `Init`, in the same or in different hosts and
from any two states, whose provider calls return the same pointer, return
external values that hold the same descriptor pointer, namely the provider's.
The wrappers need not be equal: loading the module twice in the simulated host
gives handle 1 and then handle 2, both holding the one descriptor. -/
theorem C7_same_descriptor_on_every_load {σ₁ σ₂ : Type} (h₁ : Host σ₁) (h₂ : Host σ₂)
    (env₁ env₂ : napi_env) (exports₁ exports₂ : napi_value) (s₁ : σ₁) (s₂ : σ₂)
    (hp : (h₁.tree_sitter_scl s₁).1 = (h₂.tree_sitter_scl s₂).1)
    (ok₁ : CreateOk h₁ env₁ s₁ ∧ TagOk h₁ env₁ s₁)
    (ok₂ : CreateOk h₂ env₂ s₂ ∧ TagOk h₂ env₂ s₂) :
    (wrappedData (result h₁ env₁ exports₁ s₁) (calls h₁ env₁ exports₁ s₁)
        = wrappedData (result h₂ env₂ exports₂ s₂) (calls h₂ env₂ exports₂ s₂) ∧
      wrappedData (result h₁ env₁ exports₁ s₁) (calls h₁ env₁ exports₁ s₁)
        = some (h₁.tree_sitter_scl s₁).1) ∧
    (∃ t₁ t₂ : Sim,
      t₂ = final simHost 7 9 t₁ ∧
      (CreateOk simHost 7 t₁ ∧ TagOk simHost 7 t₁) ∧
      (CreateOk simHost 7 t₂ ∧ TagOk simHost 7 t₂) ∧
      (simHost.tree_sitter_scl t₁).1 = (simHost.tree_sitter_scl t₂).1 ∧
      result simHost 7 9 t₁ ≠ result simHost 7 9 t₂) := by
  obtain ⟨hr₁, -, hl₁⟩ := Init_success h₁ env₁ exports₁ s₁ ok₁.1 ok₁.2
  obtain ⟨hr₂, -, hl₂⟩ := Init_success h₂ env₂ exports₂ s₂ ok₂.1 ok₂.2
  refine ⟨?_, sim 0 0, final simHost 7 9 (sim 0 0), rfl, by decide, by decide, by decide,
    by decide⟩
  rw [hl₁, hr₁, hl₂, hr₂]
  simp [wrappedData, descriptor, hp]

/-- C7 on the simulated host, first and second load of the module: handles 1
and 2, both holding address 4096. -/
theorem C7_witness :
    (simHost.tree_sitter_scl (sim 0 0)).1
      = (simHost.tree_sitter_scl (final simHost 7 9 (sim 0 0))).1 ∧
    result simHost 7 9 (sim 0 0) = 1 ∧
    result simHost 7 9 (final simHost 7 9 (sim 0 0)) = 2 ∧
    wrappedData (result simHost 7 9 (sim 0 0)) (calls simHost 7 9 (sim 0 0))
      = wrappedData (result simHost 7 9 (final simHost 7 9 (sim 0 0)))
          (calls simHost 7 9 (final simHost 7 9 (sim 0 0))) :=
  ⟨by decide, by decide, by decide,
    (C7_same_descriptor_on_every_load simHost simHost 7 7 9 9 (sim 0 0)
      (final simHost 7 9 (sim 0 0)) (by decide) (by decide) (by decide)).1.1⟩

/-- C8: in every host, from every state and whatever the outcome, `Init` makes
exactly one `napi_create_external` call, and its finalize callback and
finalize hint are both `NULL` (its data pointer is the provider's). -/
theorem C8_no_finalizer_registered (h : Host σ) (env : napi_env) (exports : napi_value)
    (s : σ) :
    createCalls (calls h env exports s) = [((h.tree_sitter_scl s).1, NULL, NULL)] ∧
    (∀ c ∈ createCalls (calls h env exports s), c.2.1 = NULL ∧ c.2.2 = NULL) := by
  have key : createCalls (calls h env exports s) = [((h.tree_sitter_scl s).1, NULL, NULL)] := by
    by_cases hc : CreateOk h env s
    · by_cases ht : TagOk h env s
      · rw [(Init_success h env exports s hc ht).2.2]
        simp [createCalls, descriptor]
      · rw [(Init_tagFailure h env exports s hc ht).2.2]
        simp [createCalls, descriptor]
    · rw [(Init_wrapFailure h env exports s hc).2.2]
      simp [createCalls, descriptor]
  refine ⟨key, ?_⟩
  rw [key]
  simp

/-- C10: `Init` does not use `exports`.  For any two values of `exports`, in
the same host from the same state, it makes the same calls with the same
arguments, returns the same value and leaves the same state; and the only
value it hands to `napi_type_tag_object`, the one routine it calls that
changes an object, is the external value it has just created. -/
theorem C10_exports_ignored (h : Host σ) (env : napi_env) (exports₁ exports₂ : napi_value)
    (s : σ) :
    calls h env exports₁ s = calls h env exports₂ s ∧
    Init h env exports₁ s = Init h env exports₂ s ∧
    (∀ c ∈ tagged (calls h env exports₁ s), c.1 = (created h env s).2.1) := by
  refine ⟨rfl, rfl, ?_⟩
  by_cases hc : CreateOk h env s
  · by_cases ht : TagOk h env s
    · rw [(Init_success h env exports₁ s hc ht).2.2]
      simp [tagged]
    · rw [(Init_tagFailure h env exports₁ s hc ht).2.2]
      simp [tagged]
  · rw [(Init_wrapFailure h env exports₁ s hc).2.2]
    simp [tagged]

end Scl
